import Mathlib

/-!
Shallow embedding of the research-review orchestration engine of the
repository (file `researcher-smolagent/orchestration/workflow.py`, plus the
iteration-boundary check of `researcher-smolagent/chainlit_app.py`).

Modelling conventions:
* Python `str` is `String` (scanning is done over `String.data : List Char`).
* Python `float` scores are `ℚ`; every score the program manufactures is a
  terminating decimal well inside the range where float and exact rational
  arithmetic agree on the comparisons the program performs (`>= 3.0`,
  `min(_, 5.0)`, `< 3`).
* An agent's `run` method (an external LLM call that may raise) is an
  opaque function `String → Except String String`; `Except.error msg`
  models a raised exception whose `str(e)` is `msg`.
* `re.search` over the three fixed score patterns, the recommendation
  patterns and the section pattern is implemented directly: try a match at
  every start position from the left, with greedy sub-matching.  For these
  particular patterns greedy matching without backtracking coincides with
  the regex semantics, except for the optional second `#` of the section
  pattern, where both alternatives are tried (longest first).
-/

deriving instance DecidableEq for Except

namespace ResearchWorkflow

/-- Characters matched by Python's `\s` (ASCII range, which is all the
program's own literals use). -/
def pyIsSpace (c : Char) : Bool :=
  c = ' ' || c = '\t' || c = '\n' || c = '\r' || c = '\x0b' || c = '\x0c'

/-- Characters matched by `\d` (ASCII digits). -/
def isDigitChar (c : Char) : Bool :=
  '0' ≤ c && c ≤ '9'

/-- Case-insensitive literal match (the `re.IGNORECASE` flag is set on every
`re.search` call in the source).  Returns the remaining input on success. -/
def matchLitCI : List Char → List Char → Option (List Char)
  | [], cs => some cs
  | _ :: _, [] => none
  | p :: ps, c :: cs => if p.toLower = c.toLower then matchLitCI ps cs else none

/-- Match one exact character. -/
def matchChar (c : Char) : List Char → Option (List Char)
  | [] => none
  | x :: rest => if x = c then some rest else none

/-- Greedy match of the group `\d+\.?\d*`; returns the captured characters
and the remaining input.  (Backtracking can never extend a match of the
program's score patterns past what the greedy match yields, because the
character after the group would have to be a digit or a dot, which the
greedy scan has already consumed.) -/
def matchNumber (cs : List Char) : Option (List Char × List Char) :=
  let ds := cs.takeWhile isDigitChar
  let rest := cs.dropWhile isDigitChar
  if ds.isEmpty then none
  else
    match rest with
    | '.' :: rest2 =>
        some (ds ++ '.' :: rest2.takeWhile isDigitChar, rest2.dropWhile isDigitChar)
    | _ => some (ds, rest)

/-- `re.search` driver: try the pattern at every start position, leftmost
match wins (also tries the empty suffix, as `re.search` does). -/
def searchFirst {α : Type} (tryAt : List Char → Option α) : List Char → Option α
  | [] => tryAt []
  | c :: rest =>
    match tryAt (c :: rest) with
    | some r => some r
    | none => searchFirst tryAt rest

/-- Numeric value of a digit list (most significant first). -/
def digitsToNat (ds : List Char) : Nat :=
  ds.foldl (fun acc c => acc * 10 + (c.toNat - '0'.toNat)) 0

/-- Value of a capture of `\d+\.?\d*` as an exact rational (the integer
part plus the fractional digits over the matching power of ten, written as
one fraction); this is what Python's `float(...)` computes on such a string
(up to float rounding, which is irrelevant at the program's comparison
granularity).  The conversion never raises on strings of this shape, so the
source's `except ValueError: continue` branch is dead code. -/
def parseDecimal (g : List Char) : ℚ :=
  let ip := g.takeWhile (fun c => c ≠ '.')
  let rest := g.dropWhile (fun c => c ≠ '.')
  match rest with
  | [] => mkRat (digitsToNat ip) 1
  | _ :: fp => mkRat (digitsToNat ip * 10 ^ fp.length + digitsToNat fp) (10 ^ fp.length)

/-- Python's two-argument `min` (returns the first argument on ties). -/
def pymin (a b : ℚ) : ℚ :=
  if b < a then b else a

/-- Attempt, at the current position, the pattern
`Overall Score:\s*(\d+\.?\d*)\s*/\s*5`; returns the capture. -/
def tryOverallSlash (cs : List Char) : Option (List Char) := do
  let cs1 ← matchLitCI "Overall Score:".data cs
  let cs2 := cs1.dropWhile pyIsSpace
  let (g, cs3) ← matchNumber cs2
  let cs4 := cs3.dropWhile pyIsSpace
  let cs5 ← matchChar '/' cs4
  let cs6 := cs5.dropWhile pyIsSpace
  let _ ← matchChar '5' cs6
  some g

/-- Attempt, at the current position, the pattern
`Overall Score:\s*(\d+\.?\d*)`; returns the capture. -/
def tryOverallBare (cs : List Char) : Option (List Char) := do
  let cs1 ← matchLitCI "Overall Score:".data cs
  let cs2 := cs1.dropWhile pyIsSpace
  let (g, _) ← matchNumber cs2
  some g

/-- Attempt, at the current position, the pattern
`Score:\s*(\d+\.?\d*)\s*/\s*5`; returns the capture. -/
def tryScoreSlash (cs : List Char) : Option (List Char) := do
  let cs1 ← matchLitCI "Score:".data cs
  let cs2 := cs1.dropWhile pyIsSpace
  let (g, cs3) ← matchNumber cs2
  let cs4 := cs3.dropWhile pyIsSpace
  let cs5 ← matchChar '/' cs4
  let cs6 := cs5.dropWhile pyIsSpace
  let _ ← matchChar '5' cs6
  some g

/-- Embedding of `ResearchOrchestrator._extract_score`: the three label
patterns are tried in source order, the first match is converted to a
number and capped at 5.0 (`min(score, 5.0)`); if none matches the result
is 0.0. -/
def extract_score (review_text : String) : ℚ :=
  match searchFirst tryOverallSlash review_text.data with
  | some g => pymin (parseDecimal g) 5
  | none =>
    match searchFirst tryOverallBare review_text.data with
    | some g => pymin (parseDecimal g) 5
    | none =>
      match searchFirst tryScoreSlash review_text.data with
      | some g => pymin (parseDecimal g) 5
      | none => 0

/-- Attempt, at the current position, `Recommendation:\s*WORD` (used with
WORD = ACCEPT and WORD = REVISE, case-insensitively). -/
def tryRecommendationWord (word : String) (cs : List Char) : Option Unit := do
  let cs1 ← matchLitCI "Recommendation:".data cs
  let cs2 := cs1.dropWhile pyIsSpace
  let _ ← matchLitCI word.data cs2
  some ()

/-- Embedding of `ResearchOrchestrator._extract_recommendation`. -/
def extract_recommendation (review_text : String) : String :=
  if (searchFirst (tryRecommendationWord "ACCEPT") review_text.data).isSome then "ACCEPT"
  else if (searchFirst (tryRecommendationWord "REVISE") review_text.data).isSome then "REVISE"
  else "UNKNOWN"

/-- Embedding of `ResearchOrchestrator._evaluate_acceptance`:
`sum(1 for score in scores if score >= 3.0) >= 2`.  A pure function of its
score-list argument (the Python method reads no other state and has no side
effects). -/
def evaluate_acceptance (scores : List ℚ) : Bool :=
  decide (2 ≤ scores.foldl (fun acc s => if (3 : ℚ) ≤ s then acc + 1 else acc) (0 : Nat))

/-- The exhaustion test at `workflow.py:81`: `iteration == self.max_iterations - 1`. -/
def workflow_exhaust_check (iteration max_iterations : Nat) : Bool :=
  iteration == max_iterations - 1

/-- The revision test at `chainlit_app.py:358`: `iteration < 1` (the round
is exhausted when this is false). -/
def chainlit_revise_check (iteration : Nat) : Bool :=
  decide (iteration < 1)

/-- The content capture `(.*?)(?=##|\Z)` of the section pattern (DOTALL is
set): everything up to the first occurrence of `##`, or to end-of-text. -/
def upToDoubleHash : List Char → List Char
  | [] => []
  | '#' :: '#' :: _ => []
  | c :: rest => c :: upToDoubleHash rest

/-- Tail of the section pattern after its `##?` marker:
`\s*NAME:?\s*(.*?)(?=##|\Z)` (NAME is the `re.escape`d section name,
matched case-insensitively).  Since the capture always succeeds, the
optional `:?` and the greedy `\s*` never backtrack. -/
def sectionTail (name : List Char) (cs : List Char) : Option (List Char) := do
  let cs1 := cs.dropWhile pyIsSpace
  let cs2 ← matchLitCI name cs1
  let cs3 := match cs2 with
    | ':' :: r => r
    | _ => cs2
  let cs4 := cs3.dropWhile pyIsSpace
  some (upToDoubleHash cs4)

/-- Attempt, at the current position, the pattern
`##?\s*NAME:?\s*(.*?)(?=##|\Z)`: at least one `#` is mandatory; a second
`#` is consumed greedily, falling back to the single-`#` alternative if the
tail then fails. -/
def trySectionAt (name : List Char) (cs : List Char) : Option (List Char) :=
  match cs with
  | [] => none
  | c :: rest =>
    if c = '#' then
      match rest with
      | c2 :: rest2 =>
        if c2 = '#' then
          match sectionTail name rest2 with
          | some g => some g
          | none => sectionTail name rest
        else sectionTail name rest
      | [] => sectionTail name rest
    else none

/-- Python's `str.strip()` (whitespace from both ends). -/
def pyStrip (cs : List Char) : String :=
  String.mk (((cs.dropWhile pyIsSpace).reverse.dropWhile pyIsSpace).reverse)

/-- Embedding of `ResearchOrchestrator._extract_section`: search
`##?\s*NAME:?\s*(.*?)(?=##|\Z)` (IGNORECASE, DOTALL) and return the
stripped capture, or the empty string when there is no match. -/
def extract_section (text : String) (section_name : String) : String :=
  match searchFirst (trySectionAt section_name.data) text.data with
  | some g => pyStrip g
  | none => ""

/-- Substring test over char lists (`needle` occurs inside the second
argument). -/
def containsSub (needle : List Char) : List Char → Bool
  | [] => needle.isEmpty
  | c :: rest => needle.isPrefixOf (c :: rest) || containsSub needle rest

/-- Python's `needle in haystack` on strings (case-sensitive). -/
def strContains (haystack needle : String) : Bool :=
  containsSub needle.data haystack.data

/-- One parsed review: the dict with keys reviewer, review_text, score and
recommendation built by `_parallel_council_review`. -/
structure Review where
  reviewer : String
  review_text : String
  score : ℚ
  recommendation : String
deriving DecidableEq

/-- One round entry of `all_reviews`: the dict with keys iteration,
reviews and scores. -/
structure RoundRecord where
  iteration : Nat
  reviews : List Review
  scores : List ℚ
deriving DecidableEq

/-- The dict returned by `execute_research`. -/
structure WorkflowResult where
  status : String
  research_report : String
  all_reviews : List RoundRecord
  iterations : Nat
  final_scores : List ℚ
deriving DecidableEq

/-- The synthesized-feedback dict returned by `_synthesize_feedback`. -/
structure Feedback where
  scores : List ℚ
  methodology_feedback : List String
  comprehensiveness_feedback : List String
  clarity_feedback : List String
  priorities : List String
deriving DecidableEq

/-- The orchestrator state: `self.researcher`, `self.council`, and
`self.max_iterations`.  Agent `run` methods are opaque oracles that either
return text or raise (`Except.error`). -/
structure ResearchOrchestrator where
  researcher : String → Except String String
  council : List (String → Except String String)
  max_iterations : Nat

/-- `ResearchOrchestrator.__init__`: stores the two agents and hardcodes
`self.max_iterations = 2`. -/
def ResearchOrchestrator.init (researcher_agent : String → Except String String)
    (council_agents : List (String → Except String String)) : ResearchOrchestrator :=
  { researcher := researcher_agent, council := council_agents, max_iterations := 2 }

/-- The hardcoded `reviewer_names` list of `_parallel_council_review`. -/
def reviewer_names : List String :=
  ["Dr. Sarah Chen (Methodology)",
   "Prof. James Rodriguez (Comprehensiveness)",
   "Dr. Emily Thompson (Clarity)"]

/-- The `asyncio.gather(*review_tasks)` step: one invocation per council
agent against the same report, failing as a whole if any invocation raises
(the source calls `gather` without `return_exceptions=True`).  The
scheduling nondeterminism in which of several simultaneous failures is
reported is resolved here to the leftmost failing agent; no claim depends
on the choice. -/
def gatherReviews (council : List (String → Except String String))
    (research_report : String) : Except String (List String) :=
  match council with
  | [] => .ok []
  | agent :: rest =>
    match agent research_report with
    | .error e => .error e
    | .ok t =>
      match gatherReviews rest research_report with
      | .error e => .error e
      | .ok ts => .ok (t :: ts)

/-- The parse loop of `_parallel_council_review`: builds one Review per
text, reading `reviewer_names[i]`, which raises an IndexError (whose
message reads: list index out of range) when more than three texts arrive
— the loop runs inside the same `try`, so that exception also lands in the
sentinel branch. -/
def parse_reviews : Nat → List String → Except String (List Review)
  | _, [] => .ok []
  | i, t :: rest =>
    match reviewer_names.get? i with
    | none => .error "list index out of range"
    | some name =>
      match parse_reviews (i + 1) rest with
      | .error e => .error e
      | .ok tail =>
        .ok ({ reviewer := name, review_text := t,
               score := extract_score t,
               recommendation := extract_recommendation t } :: tail)

/-- The sentinel reviews built by the `except` branch of
`_parallel_council_review` — always exactly three, whatever the council
size. -/
def errRevs (e : String) : List Review :=
  (List.range 3).map (fun i =>
    { reviewer := "Reviewer " ++ toString (i + 1),
      review_text := "Error: " ++ e,
      score := 0, recommendation := "ERROR" })

/-- Embedding of `ResearchOrchestrator._parallel_council_review`: gather
all council outputs, parse them in reviewer order; any raised exception
(from an agent or from the parse loop) is caught and replaced by the three
sentinel reviews. -/
def parallel_council_review (o : ResearchOrchestrator)
    (research_report : String) : List Review :=
  match (match gatherReviews o.council research_report with
         | .ok texts => parse_reviews 0 texts
         | .error e => .error e) with
  | .ok reviews => reviews
  | .error e => errRevs e

/-- The per-review branch body of `_synthesize_feedback`, looping over the
reviews with the four accumulating lists (`.append` is modelled by
appending a singleton). -/
def synthLoop : List Review → List String → List String → List String → List String →
    List String × List String × List String × List String
  | [], m, co, cl, pr => (m, co, cl, pr)
  | review :: rest, m, co, cl, pr =>
    let improvements := extract_section review.review_text "Areas for Improvement"
    if strContains review.reviewer "Methodology" then
      synthLoop rest (m ++ [improvements]) co cl
        (if review.score < 3 then pr ++ ["CRITICAL: Address methodology issues"] else pr)
    else if strContains review.reviewer "Comprehensiveness" then
      synthLoop rest m (co ++ [improvements]) cl
        (if review.score < 3 then pr ++ ["CRITICAL: Expand topic coverage"] else pr)
    else if strContains review.reviewer "Clarity" then
      synthLoop rest m co (cl ++ [improvements])
        (if review.score < 3 then pr ++ ["CRITICAL: Improve clarity and organization"] else pr)
    else
      synthLoop rest m co cl pr

/-- Embedding of `ResearchOrchestrator._synthesize_feedback`. -/
def synthesize_feedback (review_round : RoundRecord) : Feedback :=
  let r := synthLoop review_round.reviews [] [] [] []
  { scores := review_round.scores,
    methodology_feedback := r.1,
    comprehensiveness_feedback := r.2.1,
    clarity_feedback := r.2.2.1,
    priorities := r.2.2.2 }

/-- Fractional digits of a nonnegative rational (fuel-bounded; every score
the program produces is a short terminating decimal). -/
def fracDigits : Nat → ℚ → List Char
  | 0, _ => []
  | fuel + 1, q =>
    if q = 0 then []
    else
      let d := Rat.floor (q * 10)
      Char.ofNat ('0'.toNat + d.toNat) :: fracDigits fuel (q * 10 - (d : ℚ))

/-- Python `repr` of a nonnegative float score, abstracted to exact decimal
rendering (e.g. `2.0`, `4.2`); used only inside the revision prompt. -/
def floatRepr (q : ℚ) : String :=
  let ip := Rat.floor q
  let frac := q - (ip : ℚ)
  if frac = 0 then toString ip ++ ".0"
  else toString ip ++ "." ++ String.mk (fracDigits 20 frac)

/-- Python `str` of a list of float scores, e.g. `[2.0, 3.5]`. -/
def pyFloatListRepr (scores : List ℚ) : String :=
  "[" ++ String.intercalate ", " (scores.map floatRepr) ++ "]"

/-- Python `str(x)` for the optional report (`None` before round 1 —
unreachable in the revision branch, kept for faithfulness). -/
def pyOptStr : Option String → String
  | some s => s
  | none => "None"

/-- Embedding of `ResearchOrchestrator._create_revision_prompt` (the
f-string template of `workflow.py:335-367`).  The `original_report`
parameter is deliberately unused: the source template never interpolates
it. -/
def create_revision_prompt (query original_report : String) (feedback : Feedback) : String :=
  let priorities_text := String.intercalate "\n" (feedback.priorities.map (fun p => "- " ++ p))
  let methodology_text :=
    if feedback.methodology_feedback.isEmpty then "None"
    else String.intercalate "\n" feedback.methodology_feedback
  let comprehensiveness_text :=
    if feedback.comprehensiveness_feedback.isEmpty then "None"
    else String.intercalate "\n" feedback.comprehensiveness_feedback
  let clarity_text :=
    if feedback.clarity_feedback.isEmpty then "None"
    else String.intercalate "\n" feedback.clarity_feedback
  "\nREVISION REQUEST - Your research has been reviewed by the council and needs improvement.\n\nOriginal Research Query: "
    ++ query
    ++ "\n\nCouncil Review Scores: "
    ++ pyFloatListRepr feedback.scores
    ++ "\n\nTOP PRIORITIES FOR REVISION:\n"
    ++ priorities_text
    ++ "\n\nDETAILED FEEDBACK FROM COUNCIL:\n\nMETHODOLOGY FEEDBACK (Dr. Sarah Chen):\n"
    ++ methodology_text
    ++ "\n\nCOMPREHENSIVENESS FEEDBACK (Prof. James Rodriguez):\n"
    ++ comprehensiveness_text
    ++ "\n\nCLARITY & COMMUNICATION FEEDBACK (Dr. Emily Thompson):\n"
    ++ clarity_text
    ++ "\n\nINSTRUCTIONS FOR REVISION:\n1. Address ALL critical priority items listed above\n2. Use additional research tools to gather more sources if needed\n3. Improve source quality by prioritizing authoritative sources (.edu, .gov, peer-reviewed)\n4. Expand coverage of gaps identified by the comprehensiveness reviewer\n5. Improve clarity, organization, and structure as noted by the clarity reviewer\n6. Maintain the strengths of your original research while addressing weaknesses\n\nYour revised research will be reviewed again by the same council. Aim to score 3.0 or higher with at least 2 reviewers.\n\nConduct your revision now, using all available research tools as needed.\n"

/-- Embedding of `ResearchOrchestrator._conduct_research`: a raised
producer exception is caught and replaced by an error-string report. -/
def conduct_research (o : ResearchOrchestrator) (query : String) : String :=
  match o.researcher query with
  | .ok report => report
  | .error e => "Error conducting research: " ++ e

/-- Embedding of `ResearchOrchestrator._revise_research`: same absorption
of producer exceptions, after building the revision prompt. -/
def revise_research (o : ResearchOrchestrator) (query original_report : String)
    (feedback : Feedback) : String :=
  match o.researcher (create_revision_prompt query original_report feedback) with
  | .ok revised => revised
  | .error e => "Error revising research: " ++ e

/-- Placeholder round used to model `all_reviews[-1]` (Python would raise
`IndexError` on an empty history; that state is unreachable because the
revision branch only runs when a round has already been appended). -/
def emptyRound : RoundRecord :=
  { iteration := 0, reviews := [], scores := [] }

/-- The `while iteration < self.max_iterations` loop of `execute_research`.
The extra fuel argument makes the recursion structural; it is initialised
to `max_iterations` and only reaches 0 together with the loop guard turning
false, i.e. at Python's fall-through line 93 — whose dict display reads the
unbound local `scores` and therefore raises `UnboundLocalError` (reachable
only when `max_iterations = 0`). -/
def execute_research_go (o : ResearchOrchestrator) (query : String)
    (fuel iteration : Nat) (research_report : Option String)
    (all_reviews : List RoundRecord) : Except String WorkflowResult :=
  match fuel with
  | 0 => .error "UnboundLocalError: local variable referenced before assignment"
  | fuel' + 1 =>
    if iteration < o.max_iterations then
      let report :=
        if iteration == 0 then conduct_research o query
        else revise_research o query (pyOptStr research_report)
          (synthesize_feedback (all_reviews.getLastD emptyRound))
      let reviews := parallel_council_review o report
      let scores := reviews.map (fun rv => rv.score)
      let all_reviews2 := all_reviews ++
        [{ iteration := iteration + 1, reviews := reviews, scores := scores }]
      let accept := evaluate_acceptance scores
      if accept || workflow_exhaust_check iteration o.max_iterations then
        .ok { status := if accept then "accepted" else "completed_max_iterations",
              research_report := report,
              all_reviews := all_reviews2,
              iterations := iteration + 1,
              final_scores := scores }
      else
        execute_research_go o query fuel' (iteration + 1) (some report) all_reviews2
    else .error "UnboundLocalError: local variable referenced before assignment"

/-- Embedding of `ResearchOrchestrator.execute_research` (public entry):
run the loop from `iteration = 0`, `research_report = None`,
`all_reviews = []`. -/
def ResearchOrchestrator.execute_research (o : ResearchOrchestrator)
    (query : String) : Except String WorkflowResult :=
  execute_research_go o query o.max_iterations 0 none []

/-- Abbreviation for the report produced at the start of a loop iteration
(the Phase-1 branch of `execute_research`); definitionally equal to the
corresponding subterm of `execute_research_go`. -/
def roundReport (o : ResearchOrchestrator) (q : String) (iteration : Nat)
    (research_report : Option String) (all_reviews : List RoundRecord) : String :=
  if iteration == 0 then conduct_research o q
  else revise_research o q (pyOptStr research_report)
    (synthesize_feedback (all_reviews.getLastD emptyRound))

/-- Specification-side mapping (worded from the amended C8 claim): the
CRITICAL priority message a reviewer's name gives rise to — a reviewer
carries a category exactly when its display name contains one of the three
category keywords, checked in the source's `elif` order. -/
def criticalEntryFor (reviewer_name : String) : Option String :=
  if strContains reviewer_name "Methodology" then
    some "CRITICAL: Address methodology issues"
  else if strContains reviewer_name "Comprehensiveness" then
    some "CRITICAL: Expand topic coverage"
  else if strContains reviewer_name "Clarity" then
    some "CRITICAL: Improve clarity and organization"
  else none

/-- Concrete orchestrator whose council is empty (so the quorum of 2 can
never be reached) and whose cap is 1; used to instantiate C1. -/
def neverAcceptOrch : ResearchOrchestrator :=
  { researcher := fun _ => .ok "r", council := [], max_iterations := 1 }

/-- Concrete orchestrator whose producer raises `boom` on every call, with
one well-behaved reviewer; used for C2. -/
def failingProducerOrch : ResearchOrchestrator :=
  ResearchOrchestrator.init (fun _ => .error "boom") [fun _ => .ok "fine"]

/-- Concrete orchestrator whose producer raises `down`, with one reviewer
returning scoreless text; used for C10. -/
def c10orch : ResearchOrchestrator :=
  ResearchOrchestrator.init (fun _ => .error "down") [fun _ => .ok "meh"]

/-- Concrete council of three reviewers where only the middle one raises;
used for C3. -/
def oneRaisingCouncilOrch : ResearchOrchestrator :=
  ResearchOrchestrator.init (fun _ => .ok "r")
    [fun _ => .ok "good", fun _ => .error "boom", fun _ => .ok "fine"]

/-- Concrete orchestrator constructed with four reviewers; used for C5. -/
def fourReviewerOrch : ResearchOrchestrator :=
  ResearchOrchestrator.init (fun _ => .ok "x")
    (List.replicate 4 (fun _ => .ok "x"))

/-- Concrete orchestrator with the repository's council size of three, all
scoring 4/5; used for C5's witness. -/
def threeReviewerOrch : ResearchOrchestrator :=
  ResearchOrchestrator.init (fun _ => .ok "report")
    (List.replicate 3 (fun _ => .ok "Overall Score: 4 / 5"))

/-- Fallback result value (never selected in the uses below). -/
def wfDefault : WorkflowResult :=
  { status := "", research_report := "", all_reviews := [], iterations := 0,
    final_scores := [] }

/-- The concrete result of running the three-reviewer orchestrator. -/
def threeReviewerRun : WorkflowResult :=
  ((threeReviewerOrch.execute_research "q").toOption).getD wfDefault

/-- A round as recorded after a fanout failure: three sentinel reviews,
each with score 0.0. -/
def sentinelRound : RoundRecord :=
  { iteration := 1, reviews := errRevs "down",
    scores := (errRevs "down").map (fun rv => rv.score) }

/-- A round holding one below-threshold methodology review; used for C8's
witness. -/
def methRound : RoundRecord :=
  { iteration := 1,
    reviews := [{ reviewer := "Dr. Sarah Chen (Methodology)", review_text := "x",
                  score := 2, recommendation := "REVISE" }],
    scores := [2] }

/-! Helper lemmas. -/

/-- The passing-score tally of `_evaluate_acceptance`, written as a fold
exactly as the Python `sum(...)`, counts the entries at or above 3.0. -/
theorem foldl_passing_count (l : List ℚ) : ∀ n : Nat,
    l.foldl (fun acc s => if (3 : ℚ) ≤ s then acc + 1 else acc) n
      = n + l.countP (fun s => decide ((3 : ℚ) ≤ s)) := by
  induction l with
  | nil => intro n; simp
  | cons a l ih =>
    intro n
    by_cases h : (3 : ℚ) ≤ a
    · simp [List.countP_cons, h, ih]
      omega
    · simp [List.countP_cons, h, ih]

/-- Every capture of `\d+\.?\d*` denotes a nonnegative rational. -/
theorem parseDecimal_nonneg (g : List Char) : 0 ≤ parseDecimal g := by
  simp only [parseDecimal]
  split
  · rw [Rat.mkRat_eq_div]
    positivity
  · rw [Rat.mkRat_eq_div]
    positivity

/-- The capped score `min(score, 5.0)` lies in `[0, 5]`. -/
theorem pymin_parse_bounds (g : List Char) :
    0 ≤ pymin (parseDecimal g) 5 ∧ pymin (parseDecimal g) 5 ≤ 5 := by
  unfold pymin
  by_cases h : (5 : ℚ) < parseDecimal g
  · rw [if_pos h]
    norm_num
  · rw [if_neg h]
    exact ⟨parseDecimal_nonneg g, le_of_not_lt h⟩

/-- The section pattern cannot match anywhere in text that contains no
`#` character. -/
theorem searchFirst_section_none (name : List Char) (cs : List Char) :
    (∀ c ∈ cs, c ≠ '#') → searchFirst (trySectionAt name) cs = none := by
  induction cs with
  | nil => intro _; simp [searchFirst, trySectionAt]
  | cons c rest ih =>
    intro h
    have hc : c ≠ '#' := h c (List.mem_cons_self c rest)
    have hnone : trySectionAt name (c :: rest) = none := by
      simp [trySectionAt, hc]
    simp only [searchFirst, hnone]
    exact ih (fun x hx => h x (List.mem_cons_of_mem c hx))

/-- Unfolding equation for one executed iteration of the `while` loop (the
guard holds and fuel remains). -/
theorem go_succ (o : ResearchOrchestrator) (q : String) (fuel iteration : Nat)
    (rr : Option String) (acc : List RoundRecord) (h : iteration < o.max_iterations) :
    execute_research_go o q (fuel + 1) iteration rr acc =
      (let report := roundReport o q iteration rr acc
       let reviews := parallel_council_review o report
       let scores := reviews.map (fun rv => rv.score)
       let acc2 := acc ++ [(⟨iteration + 1, reviews, scores⟩ : RoundRecord)]
       let status := if evaluate_acceptance scores then "accepted" else "completed_max_iterations"
       if evaluate_acceptance scores || workflow_exhaust_check iteration o.max_iterations then
         Except.ok (⟨status, report, acc2, iteration + 1, scores⟩ : WorkflowResult)
       else execute_research_go o q fuel (iteration + 1) (some report) acc2) := by
  simp only [execute_research_go, roundReport]
  rw [if_pos h]

/-- `asyncio.gather` returns one text per council agent when no agent
raises. -/
theorem gatherReviews_ok_length (rep : String) :
    ∀ (council : List (String → Except String String)) (texts : List String),
      gatherReviews council rep = .ok texts → texts.length = council.length := by
  intro council
  induction council with
  | nil =>
    intro texts h
    simp only [gatherReviews] at h
    cases h
    rfl
  | cons agent rest ih =>
    intro texts h
    simp only [gatherReviews] at h
    cases ha : agent rep with
    | error e => rw [ha] at h; cases h
    | ok t =>
      rw [ha] at h
      cases hr : gatherReviews rest rep with
      | error e => rw [hr] at h; cases h
      | ok ts =>
        rw [hr] at h
        cases h
        simp [ih ts hr]

/-- The parse loop succeeds, producing one Review per text, whenever the
texts do not outnumber the three hardcoded reviewer names. -/
theorem parse_reviews_ok :
    ∀ (texts : List String) (i : Nat), i + texts.length ≤ 3 →
      ∃ rs, parse_reviews i texts = .ok rs ∧ rs.length = texts.length := by
  intro texts
  induction texts with
  | nil => intro i _; exact ⟨[], rfl, rfl⟩
  | cons t rest ih =>
    intro i h
    have hi : i < 3 := by simp at h; omega
    obtain ⟨name, hname⟩ : ∃ name, reviewer_names.get? i = some name := by
      interval_cases i
      · exact ⟨_, rfl⟩
      · exact ⟨_, rfl⟩
      · exact ⟨_, rfl⟩
    obtain ⟨rs, hrs, hlen⟩ := ih (i + 1) (by simp at h ⊢; omega)
    refine ⟨{ reviewer := name, review_text := t, score := extract_score t,
              recommendation := extract_recommendation t } :: rs, ?_, ?_⟩
    · simp only [parse_reviews, hname, hrs]
    · simp [hlen]

/-- Every fanout result has exactly three entries when the council has
three members: the success path parses one Review per agent, and the
failure path always manufactures three sentinels. -/
theorem parallel_council_review_length (o : ResearchOrchestrator) (rep : String)
    (h3 : o.council.length = 3) : (parallel_council_review o rep).length = 3 := by
  unfold parallel_council_review
  cases hg : gatherReviews o.council rep with
  | error e => simp [errRevs]
  | ok texts =>
    have hlen := gatherReviews_ok_length rep o.council texts hg
    obtain ⟨rs, hrs, hrl⟩ := parse_reviews_ok texts 0 (by omega)
    simp [hrs, hrl, hlen, h3]

/-- The loop always returns a result with one of the two statuses, as long
as the guard holds and the fuel mirrors the remaining iterations. -/
theorem go_ok (o : ResearchOrchestrator) (q : String) :
    ∀ fuel iteration rr acc, iteration + fuel = o.max_iterations →
      iteration < o.max_iterations →
      ∃ res, execute_research_go o q fuel iteration rr acc = .ok res ∧
        (res.status = "accepted" ∨ res.status = "completed_max_iterations") := by
  intro fuel
  induction fuel with
  | zero => intro iteration rr acc hsum hlt; omega
  | succ fuel ih =>
    intro iteration rr acc hsum hlt
    rw [go_succ o q fuel iteration rr acc hlt]
    by_cases ha : evaluate_acceptance
        ((parallel_council_review o (roundReport o q iteration rr acc)).map
          (fun rv => rv.score)) = true
    · simp only [ha, Bool.true_or, if_true]
      exact ⟨_, rfl, Or.inl rfl⟩
    · rw [Bool.not_eq_true] at ha
      by_cases hex : iteration = o.max_iterations - 1
      · have hchk : workflow_exhaust_check iteration o.max_iterations = true := by
          simp [workflow_exhaust_check, hex]
        simp only [ha, hchk, Bool.false_or, Bool.false_eq_true, if_true, if_false]
        exact ⟨_, rfl, Or.inr rfl⟩
      · have hchk : workflow_exhaust_check iteration o.max_iterations = false := by
          simp [workflow_exhaust_check]
          omega
        simp only [ha, hchk, Bool.false_or, Bool.false_eq_true, if_false]
        exact ih (iteration + 1) _ _ (by omega) (by omega)

/-- When the acceptance policy always rejects, the loop runs the remaining
iterations to exhaustion, appending one round per iteration; the final
round is numbered `max_iterations` and reviews the returned artifact. -/
theorem go_never_accept (o : ResearchOrchestrator) (q : String)
    (hH : ∀ rep, evaluate_acceptance
        ((parallel_council_review o rep).map (fun rv => rv.score)) = false) :
    ∀ fuel iteration rr acc, iteration + fuel = o.max_iterations →
      iteration < o.max_iterations → acc.length = iteration →
      ∃ res, execute_research_go o q fuel iteration rr acc = .ok res ∧
        res.status = "completed_max_iterations" ∧
        res.iterations = o.max_iterations ∧
        res.all_reviews.length = o.max_iterations ∧
        res.all_reviews.getLast? = some
          (⟨o.max_iterations, parallel_council_review o res.research_report,
            (parallel_council_review o res.research_report).map (fun rv => rv.score)⟩ :
            RoundRecord) ∧
        res.final_scores =
          (parallel_council_review o res.research_report).map (fun rv => rv.score) := by
  intro fuel
  induction fuel with
  | zero => intro iteration rr acc hsum hlt hlen; omega
  | succ fuel ih =>
    intro iteration rr acc hsum hlt hlen
    rw [go_succ o q fuel iteration rr acc hlt]
    have ha := hH (roundReport o q iteration rr acc)
    by_cases hex : iteration = o.max_iterations - 1
    · have hit : iteration + 1 = o.max_iterations := by omega
      have hchk : workflow_exhaust_check iteration o.max_iterations = true := by
        simp [workflow_exhaust_check, hex]
      simp only [ha, hchk, Bool.false_or, Bool.false_eq_true, if_true, if_false]
      refine ⟨_, rfl, rfl, hit, ?_, ?_, rfl⟩
      · simp [hlen]
        omega
      · simp [hit]
    · have hchk : workflow_exhaust_check iteration o.max_iterations = false := by
        simp [workflow_exhaust_check]
        omega
      simp only [ha, hchk, Bool.false_or, Bool.false_eq_true, if_false]
      exact ih (iteration + 1) _ _ (by omega) (by omega) (by simp [hlen])

/-- Whatever path the loop takes, a returned result carries one recorded
round per executed iteration, and — when the council has three members —
three reviews in every round. -/
theorem go_lengths (o : ResearchOrchestrator) (q : String) (h3 : o.council.length = 3) :
    ∀ fuel iteration rr acc, (∀ rd ∈ acc, rd.reviews.length = 3) →
      acc.length = iteration →
      ∀ res, execute_research_go o q fuel iteration rr acc = .ok res →
        (∀ rd ∈ res.all_reviews, rd.reviews.length = 3) ∧
        res.all_reviews.length = res.iterations := by
  intro fuel
  induction fuel with
  | zero =>
    intro iteration rr acc hacc hlen res h
    simp [execute_research_go] at h
  | succ fuel ih =>
    intro iteration rr acc hacc hlen res h
    by_cases hlt : iteration < o.max_iterations
    · rw [go_succ o q fuel iteration rr acc hlt] at h
      have hacc2 : ∀ rd ∈ acc ++
          [(⟨iteration + 1, parallel_council_review o (roundReport o q iteration rr acc),
            (parallel_council_review o (roundReport o q iteration rr acc)).map
              (fun rv => rv.score)⟩ : RoundRecord)], rd.reviews.length = 3 := by
        intro rd hrd
        rcases List.mem_append.mp hrd with hin | hin
        · exact hacc rd hin
        · rw [List.mem_singleton.mp hin]
          exact parallel_council_review_length o _ h3
      by_cases hc : (evaluate_acceptance
          ((parallel_council_review o (roundReport o q iteration rr acc)).map
            (fun rv => rv.score)) ||
          workflow_exhaust_check iteration o.max_iterations) = true
      · simp only [hc, if_true] at h
        rw [Except.ok.injEq] at h
        subst h
        refine ⟨hacc2, ?_⟩
        simp [hlen]
      · rw [Bool.not_eq_true] at hc
        simp only [hc, Bool.false_eq_true, if_false] at h
        exact ih (iteration + 1) _ _ hacc2 (by simp [hlen]) res h
    · simp only [execute_research_go] at h
      rw [if_neg hlt] at h
      cases h

/-- The priorities accumulated by the feedback loop: whatever the four
accumulators hold, the loop appends exactly one CRITICAL entry per review
whose name carries a category keyword and whose score is below 3. -/
theorem synthLoop_priorities (reviews : List Review) :
    ∀ m co cl pr, (synthLoop reviews m co cl pr).2.2.2 =
      pr ++ reviews.filterMap
        (fun rv => if rv.score < 3 then criticalEntryFor rv.reviewer else none) := by
  induction reviews with
  | nil => intro m co cl pr; simp [synthLoop]
  | cons rv rest ih =>
    intro m co cl pr
    by_cases hm : strContains rv.reviewer "Methodology" = true
    · by_cases hs : rv.score < (3 : ℚ)
      · simp [synthLoop, criticalEntryFor, hm, hs, ih]
      · simp [synthLoop, criticalEntryFor, hm, hs, ih]
    · by_cases hco : strContains rv.reviewer "Comprehensiveness" = true
      · by_cases hs : rv.score < (3 : ℚ)
        · simp [synthLoop, criticalEntryFor, hm, hco, hs, ih]
        · simp [synthLoop, criticalEntryFor, hm, hco, hs, ih]
      · by_cases hcl : strContains rv.reviewer "Clarity" = true
        · by_cases hs : rv.score < (3 : ℚ)
          · simp [synthLoop, criticalEntryFor, hm, hco, hcl, hs, ih]
          · simp [synthLoop, criticalEntryFor, hm, hco, hcl, hs, ih]
        · simp [synthLoop, criticalEntryFor, hm, hco, hcl, ih]

/-! Claim theorems (and their witnesses), one per claim. -/

/-- C4: for every list of scores S, `_evaluate_acceptance` returns true iff
the number of entries of S at or above 3.0 is at least 2.  (The embedded
function is a pure function of its argument: the Python method touches no
state besides `scores`.) -/
theorem C4_acceptance_quorum (scores : List ℚ) :
    evaluate_acceptance scores = true ↔
      2 ≤ scores.countP (fun s => decide ((3 : ℚ) ≤ s)) := by
  unfold evaluate_acceptance
  rw [foldl_passing_count]
  simp

/-- C7: for every iteration index reachable with MAX_ITERATIONS = 2 (that
is, 0 and 1), the workflow's check `iteration == max_iterations - 1` and
the chainlit check `iteration < 1` decide exhaustion identically, and both
fire exactly on the final allowed iteration index `2 - 1`. -/
theorem C7_boundary_checks_agree (iteration : Nat) (h : iteration < 2) :
    (workflow_exhaust_check iteration 2 = !chainlit_revise_check iteration) ∧
    (workflow_exhaust_check iteration 2 = true ↔ iteration = 2 - 1) := by
  interval_cases iteration <;>
    simp [workflow_exhaust_check, chainlit_revise_check]

/-- Witness for C7 at the boundary index 1. -/
theorem C7_boundary_checks_agree_witness :
    (1 : Nat) < 2 ∧
    (workflow_exhaust_check 1 2 = !chainlit_revise_check 1) ∧
    (workflow_exhaust_check 1 2 = true ↔ (1 : Nat) = 2 - 1) :=
  ⟨by decide, C7_boundary_checks_agree 1 (by decide)⟩

/-- C6: `_extract_score` always returns a value in `[0, 5]` (parsed values
above 5 are capped at 5.0); when no pattern matches it returns 0.0; and on
the three spec examples it returns 4.2, 5.0 (clamped from 9) and 0.0.  The
source's unparseable-number fallback (`except ValueError: continue`) is
dead code because every capture of `\d+\.?\d*` parses. -/
theorem C6_extract_score_range_and_examples :
    (∀ t : String, 0 ≤ extract_score t ∧ extract_score t ≤ 5) ∧
    extract_score "Overall Score: 4.2 / 5" = mkRat 21 5 ∧
    extract_score "Score: 9/5" = 5 ∧
    extract_score "no score here" = 0 ∧
    (∀ t : String, searchFirst tryOverallSlash t.data = none →
      searchFirst tryOverallBare t.data = none →
      searchFirst tryScoreSlash t.data = none → extract_score t = 0) := by
  refine ⟨?_, by decide, by decide, by decide, ?_⟩
  · intro t
    unfold extract_score
    cases h1 : searchFirst tryOverallSlash t.data with
    | some g => exact pymin_parse_bounds g
    | none =>
      cases h2 : searchFirst tryOverallBare t.data with
      | some g => exact pymin_parse_bounds g
      | none =>
        cases h3 : searchFirst tryScoreSlash t.data with
        | some g => exact pymin_parse_bounds g
        | none => norm_num
  · intro t h1 h2 h3
    unfold extract_score
    rw [h1, h2, h3]

/-- Witness for C6 on the concrete no-match input `abc`. -/
theorem C6_extract_score_range_and_examples_witness :
    (0 ≤ extract_score "abc" ∧ extract_score "abc" ≤ 5) ∧ extract_score "abc" = 0 :=
  ⟨C6_extract_score_range_and_examples.1 "abc",
   C6_extract_score_range_and_examples.2.2.2.2 "abc" (by decide) (by decide) (by decide)⟩

/-- C9 counterexample: the claim says markdown heading markers are
"allowed but not required", so a bare `Areas for Improvement:` header
should be located and `fix X` returned; the code's pattern `##?...`
requires at least one `#`, and returns the empty string here instead. -/
theorem C9_counterexample :
    extract_section "Areas for Improvement: fix X" "Areas for Improvement" = "" := by
  decide

/-- C9 (amended): `_extract_section` locates a header only when it is
introduced by one or two `#` marks (text without any `#` always yields the
empty string); the content runs from after the header up to the next `##`
(a single-`#` line does not end it) or to end-of-text, trimmed. -/
theorem C9_extract_section_behavior :
    (∀ t name : String, (∀ c ∈ t.data, c ≠ '#') → extract_section t name = "") ∧
    extract_section "# Areas for Improvement:\nfix X\n## Next\nmore"
      "Areas for Improvement" = "fix X" ∧
    extract_section "## Summary\nA\n# Sub\nB\n## Next\nC" "Summary" = "A\n# Sub\nB" := by
  refine ⟨?_, by decide, by decide⟩
  intro t name h
  unfold extract_section
  rw [searchFirst_section_none name.data t.data h]

/-- Witness for C9 on concrete marker-free text. -/
theorem C9_extract_section_behavior_witness :
    extract_section "plain text, no heading marks" "Areas" = "" :=
  C9_extract_section_behavior.1 "plain text, no heading marks" "Areas" (by decide)

/-- C1: for every orchestrator with `MAX_ITERATIONS = K ≥ 1` and a council
whose reviews the acceptance policy always rejects, `execute_research`
terminates normally after exactly K rounds with status
`completed_max_iterations`, reports `iterations = K`, records K rounds in
`all_reviews`, and the last recorded round is round K, whose reviews are
precisely the council's reviews of the returned artifact (so the returned
artifact is the K-th round's report). -/
theorem C1_never_accept_exhausts (o : ResearchOrchestrator) (q : String)
    (hK : 1 ≤ o.max_iterations)
    (hH : ∀ rep, evaluate_acceptance
        ((parallel_council_review o rep).map (fun rv => rv.score)) = false) :
    ∃ res, o.execute_research q = .ok res ∧
      res.status = "completed_max_iterations" ∧
      res.iterations = o.max_iterations ∧
      res.all_reviews.length = o.max_iterations ∧
      res.all_reviews.getLast? = some
        (⟨o.max_iterations, parallel_council_review o res.research_report,
          (parallel_council_review o res.research_report).map (fun rv => rv.score)⟩ :
          RoundRecord) ∧
      res.final_scores =
        (parallel_council_review o res.research_report).map (fun rv => rv.score) :=
  go_never_accept o q hH o.max_iterations 0 none [] (by omega) (by omega) rfl

/-- Witness for C1: an orchestrator with an empty council (quorum 2 can
never be met) and `max_iterations = 1`. -/
theorem C1_never_accept_exhausts_witness :
    1 ≤ neverAcceptOrch.max_iterations ∧
    ∃ res, neverAcceptOrch.execute_research "q" = .ok res ∧
      res.status = "completed_max_iterations" ∧
      res.iterations = neverAcceptOrch.max_iterations ∧
      res.all_reviews.length = neverAcceptOrch.max_iterations ∧
      res.all_reviews.getLast? = some
        (⟨neverAcceptOrch.max_iterations,
          parallel_council_review neverAcceptOrch res.research_report,
          (parallel_council_review neverAcceptOrch res.research_report).map
            (fun rv => rv.score)⟩ : RoundRecord) ∧
      res.final_scores =
        (parallel_council_review neverAcceptOrch res.research_report).map
          (fun rv => rv.score) :=
  ⟨by decide, C1_never_accept_exhausts neverAcceptOrch "q" (by decide) (fun _ => rfl)⟩

/-- C2 counterexample: with a producer that raises `boom` on round 1, the
claim predicts a propagated fatal failure and an empty round history; the
code instead returns normally with status `completed_max_iterations` and
two recorded rounds. -/
theorem C2_counterexample :
    (failingProducerOrch.execute_research "q").map
      (fun r => (r.status, r.all_reviews.length)) =
      Except.ok ("completed_max_iterations", 2) := by
  decide

/-- C2 (amended): a producer exception on round 1 does not propagate:
`_conduct_research` absorbs it into the artifact string
`Error conducting research: <message>`, `execute_research` returns
normally, and round 1 IS recorded — its reviews are the council's reviews
of that error-string artifact. -/
theorem C2_producer_error_recorded (council : List (String → Except String String))
    (e q : String) :
    conduct_research (ResearchOrchestrator.init (fun _ => Except.error e) council) q =
      "Error conducting research: " ++ e ∧
    ∃ res, (ResearchOrchestrator.init (fun _ => Except.error e) council).execute_research q
        = .ok res ∧
      res.all_reviews ≠ [] ∧
      res.all_reviews.head? = some
        (⟨1, parallel_council_review
            (ResearchOrchestrator.init (fun _ => Except.error e) council)
            ("Error conducting research: " ++ e),
          (parallel_council_review
            (ResearchOrchestrator.init (fun _ => Except.error e) council)
            ("Error conducting research: " ++ e)).map (fun rv => rv.score)⟩ :
          RoundRecord) := by
  constructor
  · rfl
  · have h2 : (ResearchOrchestrator.init (fun _ => Except.error e) council).max_iterations
        = 2 := rfl
    unfold ResearchOrchestrator.execute_research
    rw [h2]
    rw [go_succ _ q 1 0 none [] (by rw [h2]; omega)]
    have hrep : roundReport (ResearchOrchestrator.init (fun _ => Except.error e) council)
        q 0 none [] = "Error conducting research: " ++ e := rfl
    simp only [hrep, h2]
    by_cases ha : evaluate_acceptance
        ((parallel_council_review
          (ResearchOrchestrator.init (fun _ => Except.error e) council)
          ("Error conducting research: " ++ e)).map (fun rv => rv.score)) = true
    · simp only [ha, Bool.true_or, if_true]
      exact ⟨_, rfl, by simp, by simp⟩
    · rw [Bool.not_eq_true] at ha
      have hchk : workflow_exhaust_check 0 2 = false := by decide
      simp only [ha, hchk, Bool.false_or, Bool.false_eq_true, if_false]
      rw [go_succ _ q 0 1 _ _ (by rw [h2]; omega)]
      have hrep2 : ∀ acc : List RoundRecord,
          roundReport (ResearchOrchestrator.init (fun _ => Except.error e) council)
            q 1 (some ("Error conducting research: " ++ e)) acc =
            "Error revising research: " ++ e := fun _ => rfl
      simp only [hrep2, h2]
      have hchk2 : workflow_exhaust_check 1 2 = true := by decide
      simp only [hchk2, Bool.or_true, if_true]
      exact ⟨_, rfl, by simp, by simp⟩

/-- C3 counterexample: with reviewers 1 and 3 succeeding (`good`, `fine`)
and reviewer 2 raising `boom`, the claim predicts a sentinel only at
position 2 with positions 1 and 3 carrying their own texts; the code
replaces ALL THREE entries by sentinels carrying `Error: boom`. -/
theorem C3_counterexample :
    parallel_council_review oneRaisingCouncilOrch "rep" =
      [⟨"Reviewer 1", "Error: boom", 0, "ERROR"⟩,
       ⟨"Reviewer 2", "Error: boom", 0, "ERROR"⟩,
       ⟨"Reviewer 3", "Error: boom", 0, "ERROR"⟩] ∧
    (parallel_council_review oneRaisingCouncilOrch "rep").map (fun rv => rv.review_text) =
      ["Error: boom", "Error: boom", "Error: boom"] :=
  ⟨by decide, by decide⟩

/-- C3 (amended): if any one reviewer invocation raises during the fanout
(here the middle of three, with both siblings succeeding), `asyncio.gather`
fails as a whole and the entire result is replaced by the three sentinel
reviews (score 0.0, recommendation ERROR) — the successful siblings' texts
are discarded rather than preserved. -/
theorem C3_one_failure_poisons_all
    (researcher f1 f3 : String → Except String String)
    (t1 t3 e rep : String) (h1 : f1 rep = .ok t1) (h3 : f3 rep = .ok t3) :
    parallel_council_review
      (⟨researcher, [f1, fun _ => Except.error e, f3], 2⟩ : ResearchOrchestrator) rep =
      errRevs e := by
  unfold parallel_council_review
  have hco : (⟨researcher, [f1, fun _ => Except.error e, f3], 2⟩ :
      ResearchOrchestrator).council = [f1, fun _ => Except.error e, f3] := rfl
  rw [hco]
  have hg : gatherReviews [f1, fun _ => Except.error e, f3] rep = .error e := by
    simp only [gatherReviews, h1]
  rw [hg]

/-- Witness for C3 at concrete agents. -/
theorem C3_one_failure_poisons_all_witness :
    ((fun _ => Except.ok "good" : String → Except String String) "rep" = Except.ok "good") ∧
    ((fun _ => Except.ok "fine" : String → Except String String) "rep" = Except.ok "fine") ∧
    parallel_council_review
      (⟨fun _ => Except.ok "r",
        [fun _ => Except.ok "good", fun _ => Except.error "boom", fun _ => Except.ok "fine"],
        2⟩ : ResearchOrchestrator) "rep" = errRevs "boom" :=
  ⟨rfl, rfl,
   C3_one_failure_poisons_all (fun _ => Except.ok "r") (fun _ => Except.ok "good")
     (fun _ => Except.ok "fine") "good" "fine" "boom" "rep" rfl rfl⟩

/-- C5 counterexample: a run constructed with N = 4 reviewers.  The claim
predicts every recorded round holds 4 reviews; in the code the parse loop
raises `IndexError` past the three hardcoded names, so both recorded
rounds hold 3 sentinel reviews. -/
theorem C5_counterexample :
    fourReviewerOrch.council.length = 4 ∧
    (fourReviewerOrch.execute_research "q").map
      (fun r => r.all_reviews.map (fun rd => rd.reviews.length)) =
      Except.ok [3, 3] :=
  ⟨by decide, by decide⟩

/-- C5 (amended): for every run whose council has the repository's fixed
size N = 3, every recorded round's review list has length exactly 3, and
the recorded round history length equals the reported iteration count. -/
theorem C5_three_reviewer_round_invariant (o : ResearchOrchestrator) (q : String)
    (h3 : o.council.length = 3) (res : WorkflowResult)
    (hres : o.execute_research q = .ok res) :
    (∀ rd ∈ res.all_reviews, rd.reviews.length = 3) ∧
    res.all_reviews.length = res.iterations :=
  go_lengths o q h3 o.max_iterations 0 none [] (by simp) rfl res hres

/-- Witness for C5 on a concrete three-reviewer run. -/
theorem C5_three_reviewer_round_invariant_witness :
    (∀ rd ∈ threeReviewerRun.all_reviews, rd.reviews.length = 3) ∧
    threeReviewerRun.all_reviews.length = threeReviewerRun.iterations :=
  C5_three_reviewer_round_invariant threeReviewerOrch "q" (by decide)
    threeReviewerRun (by decide)

/-- C8 counterexample: a round recorded after a fanout failure holds three
sentinel reviews named `Reviewer 1..3`, every score 0.0 < 3.0, yet the
synthesized feedback contains NO critical-priority entry — contradicting
the claim that a CRITICAL entry is added iff the reviewer's score is below
the threshold. -/
theorem C8_counterexample :
    (synthesize_feedback sentinelRound).priorities = [] ∧
    sentinelRound.scores = [0, 0, 0] :=
  ⟨by decide, by decide⟩

/-- C8 (amended): a CRITICAL entry appears for a review exactly when the
reviewer's display name carries one of the three category keywords AND its
score is below 3.0 (reviews with unrecognized names — e.g. fanout-failure
sentinels — contribute nothing, whatever their score); the priority list
contains only the three CRITICAL messages, in reviewer order; and the
directive is a pure function of the round (it is a Lean function of the
round record, so identical input yields an identical directive). -/
theorem C8_critical_priorities (rd : RoundRecord) :
    (synthesize_feedback rd).priorities =
      rd.reviews.filterMap
        (fun rv => if rv.score < 3 then criticalEntryFor rv.reviewer else none) ∧
    (synthesize_feedback rd).scores = rd.scores ∧
    ∀ p ∈ (synthesize_feedback rd).priorities,
      p = "CRITICAL: Address methodology issues" ∨
      p = "CRITICAL: Expand topic coverage" ∨
      p = "CRITICAL: Improve clarity and organization" := by
  have hp : (synthesize_feedback rd).priorities =
      rd.reviews.filterMap
        (fun rv => if rv.score < 3 then criticalEntryFor rv.reviewer else none) := by
    simpa [synthesize_feedback] using synthLoop_priorities rd.reviews [] [] [] []
  refine ⟨hp, rfl, ?_⟩
  intro p hpmem
  rw [hp] at hpmem
  obtain ⟨rv, _, hrv⟩ := List.mem_filterMap.mp hpmem
  by_cases hs : rv.score < (3 : ℚ)
  · rw [if_pos hs] at hrv
    unfold criticalEntryFor at hrv
    split_ifs at hrv <;> simp at hrv <;> simp [hrv]
  · rw [if_neg hs] at hrv
    exact absurd hrv (by simp)

/-- Witness for C8 at a round with one below-threshold methodology
review. -/
theorem C8_critical_priorities_witness :
    "CRITICAL: Address methodology issues" = "CRITICAL: Address methodology issues" ∨
    "CRITICAL: Address methodology issues" = "CRITICAL: Expand topic coverage" ∨
    "CRITICAL: Address methodology issues" = "CRITICAL: Improve clarity and organization" :=
  (C8_critical_priorities methRound).2.2 "CRITICAL: Address methodology issues" (by decide)

/-- C10: `execute_research` is total at its public boundary for the
orchestrator as constructed (`max_iterations = 2`): for every producer and
reviewer behavior it returns a result whose status is `accepted` or
`completed_max_iterations`; a producer exception with message m is
absorbed as the artifact `Error conducting research: m` (round 1) or
`Error revising research: m` (revision), and — as the concrete run shows —
such an error string can be the final `research_report`. -/
theorem C10_execute_research_total :
    (∀ (researcher : String → Except String String)
        (council : List (String → Except String String)) (q : String),
      ∃ res, (ResearchOrchestrator.init researcher council).execute_research q = .ok res ∧
        (res.status = "accepted" ∨ res.status = "completed_max_iterations")) ∧
    (∀ (o : ResearchOrchestrator) (q e : String), o.researcher q = .error e →
      conduct_research o q = "Error conducting research: " ++ e) ∧
    (∀ (o : ResearchOrchestrator) (q rep : String) (fb : Feedback) (e : String),
      o.researcher (create_revision_prompt q rep fb) = .error e →
      revise_research o q rep fb = "Error revising research: " ++ e) ∧
    (c10orch.execute_research "q").map (fun r => (r.status, r.research_report)) =
      Except.ok ("completed_max_iterations", "Error revising research: down") := by
  refine ⟨?_, ?_, ?_, by decide⟩
  · intro researcher council q
    exact go_ok (ResearchOrchestrator.init researcher council) q 2 0 none [] rfl
      (Nat.succ_pos 1)
  · intro o q e h
    unfold conduct_research
    rw [h]
  · intro o q rep fb e h
    unfold revise_research
    rw [h]

/-- Witness for C10: the absorption clause at a concrete raising
producer. -/
theorem C10_execute_research_total_witness :
    c10orch.researcher "q" = Except.error "down" ∧
    conduct_research c10orch "q" = "Error conducting research: down" :=
  ⟨rfl, C10_execute_research_total.2.1 c10orch "q" "down" rfl⟩

end ResearchWorkflow
